import Mathlib

/-!
Verification development for the Alphamind trading-assistant repository.

The client code (React frontend) is embedded directly from the source files;
machine floats are modelled as rationals, JS `toFixed(2)` as rounding to two
decimal places, and JS truthiness of numeric fields as `Option ℚ` with `0`
falsy.  The backend endpoints (server.py, absent from the source tree) are
modelled from the specification where a claim depends on them; every such
definition carries a doc comment starting with `Modelled from the spec:`.
-/

/-- Rounding to two decimal places, the model of JS `parseFloat(x.toFixed(2))`
and of `Number(x).toFixed(2)` read back as a number. -/
def round2 (x : ℚ) : ℚ := ((round (x * 100) : ℤ) : ℚ) / 100

/-- JS truthiness of an optional numeric field: `undefined`/`null` and `0`
are falsy, every other number is truthy. -/
def qTruthy : Option ℚ → Bool
  | none => false
  | some x => x != 0

/-- JS truthiness of an optional string field: `undefined`/`null` and the
empty string are falsy. -/
def sTruthy : Option String → Bool
  | none => false
  | some s => s != ""

/- ===== Client-side signal handling (src/unnamed/part_001, App.js,
   src/frontend/src/pages/Signals.jsx, src/unnamed/part_003) ===== -/

/-- Client-side view of a generated signal, with the fields the
trade-execution handlers read (`id`, `symbol`, side/direction, captured
entry, stop, target, strategy). -/
structure ClientSignal where
  sid : String
  symbol : String
  direction : String
  entry : ℚ
  sl : ℚ
  tp : ℚ
  strategy : String

/-- Body of the POST `/api/trades` request the clients build. -/
structure TradeRequest where
  signal_id : Option String
  symbol : String
  direction : String
  entry_price : ℚ
  quantity : ℚ
  stop_loss : ℚ
  take_profit : ℚ
  strategy : Option String

/-- `executeTrade` of `src/frontend/src/App.js` (TradingPage, lines 294-318):
it first fetches the current market price from `/api/price/{symbol}` and
sends that price as `entry_price`, with `quantity: 1`. -/
def appExecuteTrade (s : ClientSignal) (currentPrice : ℚ) : TradeRequest :=
  { signal_id := none
    symbol := s.symbol
    direction := s.direction
    entry_price := currentPrice
    quantity := 1
    stop_loss := s.sl
    take_profit := s.tp
    strategy := some s.strategy }

/-- `executeTrade` of `src/unnamed/part_003` (lines 287-307): it sends the
signal's captured entry (`entry_price: signal.entry`) and `quantity: 1`; no
live price is fetched. -/
def part003ExecuteTrade (s : ClientSignal) : TradeRequest :=
  { signal_id := none
    symbol := s.symbol
    direction := s.direction
    entry_price := s.entry
    quantity := 1
    stop_loss := s.sl
    take_profit := s.tp
    strategy := some s.strategy }

/-- `executeTrade` of `src/frontend/src/pages/Signals.jsx` (lines 48-63): it
sends `signal_id` and the signal's captured `entry_price`, with
`quantity: 1`; no live price is fetched and no strategy field is sent. -/
def signalsPageExecuteTrade (s : ClientSignal) : TradeRequest :=
  { signal_id := some s.sid
    symbol := s.symbol
    direction := s.direction
    entry_price := s.entry
    quantity := 1
    stop_loss := s.sl
    take_profit := s.tp
    strategy := none }

/-- `markExecuted` of `src/unnamed/part_001` (lines 142-160): sends
`signal_id`, the signal's captured entry, `quantity: 1` and the strategy. -/
def markExecuted (s : ClientSignal) : TradeRequest :=
  { signal_id := some s.sid
    symbol := s.symbol
    direction := s.direction
    entry_price := s.entry
    quantity := 1
    stop_loss := s.sl
    take_profit := s.tp
    strategy := some s.strategy }

/-- `qualityTier` expression of `src/unnamed/part_001` line 127 (and 661):
`confidence >= 80 ? "A" : confidence >= 65 ? "B" : "C"`. -/
def qualityTier (c : ℚ) : String :=
  if 80 ≤ c then "A" else if 65 ≤ c then "B" else "C"

/-- `confidenceColor` of `src/unnamed/part_001` lines 37-43: non-numeric
input maps to the neutral slate colour, otherwise the 80/65 thresholds pick
emerald/amber/rose. -/
def confidenceColor : Option ℚ → String
  | none => "text-slate-400"
  | some v =>
      if 80 ≤ v then "text-emerald-400"
      else if 65 ≤ v then "text-amber-300"
      else "text-rose-400"

/-- Shape of the `/api/ai/analyze` response body the client reads. -/
structure AnalysisResult where
  signal : Option String
  entry_price : Option ℚ
  stop_loss : Option ℚ
  take_profit_1 : Option ℚ
  confidence : Option ℚ

/-- The `rr` expression of `generateSignal` in `src/unnamed/part_001`
(lines 655-659): when entry, stop and target are all truthy it is
`Math.abs((tp - entry) / (entry - sl)).toFixed(2)`, otherwise `null`.
(The JS zero-denominator case produces `Infinity`; this embedding is only
used at non-degenerate stops, `entry ≠ stop`.) -/
def clientRR (entry sl tp : Option ℚ) : Option ℚ :=
  if qTruthy entry && qTruthy sl && qTruthy tp then
    some (round2 |(tp.getD 0 - entry.getD 0) / (entry.getD 0 - sl.getD 0)|)
  else none

/-- Client-side signal record built by `generateSignal` in
`src/unnamed/part_001` (lines 645-665). -/
structure GenSignal where
  side : String
  entry : Option ℚ
  sl : Option ℚ
  tp : Option ℚ
  rr : Option ℚ
  confidence : ℚ
  tier : String

/-- `generateSignal` of `src/unnamed/part_001` (lines 645-665): the signal
object is built unconditionally from the analysis payload — side defaults to
NEUTRAL, `rr` is `clientRR`, confidence defaults to 50 via `||`, and the
tier is computed from the raw confidence field. -/
def genSignal (a : AnalysisResult) : GenSignal :=
  { side := if sTruthy a.signal then a.signal.getD "" else "NEUTRAL"
    entry := a.entry_price
    sl := a.stop_loss
    tp := a.take_profit_1
    rr := clientRR a.entry_price a.stop_loss a.take_profit_1
    confidence := if qTruthy a.confidence then a.confidence.getD 0 else 50
    tier := match a.confidence with
      | some c => qualityTier c
      | none => "C" }

/- ===== Floating PnL aggregation (src/unnamed/part_001 lines 189-190,
   App.js lines 333-334) ===== -/

/-- Trade fields the floating-PnL aggregation reads. -/
structure FloatTrade where
  status : String
  floating_pnl : Option ℚ

/-- `totalFloatingPnl` of `src/unnamed/part_001` line 190 (identical to
`floatingPnl` in `App.js` lines 333-334): filter the trade list to
`status === 'open'` and reduce with `sum + (t.floating_pnl || 0)`. -/
def totalFloatingPnl (ts : List FloatTrade) : ℚ :=
  ((ts.filter (fun t => t.status = "open")).map
    (fun t => t.floating_pnl.getD 0)).sum

/- ===== Client close-trade requests (src/unnamed/part_001 lines 162-187,
   App.js lines 320-331) ===== -/

/-- The four close policies the client can request. -/
inductive ClosePolicy where
  | manual (price : ℚ)
  | market
  | stopLoss
  | takeProfit

/-- Endpoint and caller-supplied price of each close request, from
`closeTrade` and `closeTradeManual` of `src/unnamed/part_001`
(lines 162-187): manual posts `/close?exit_price=p`, the other three post
`/close-at-market`, `/close-sl`, `/close-tp` with no price. -/
def clientCloseRequest : ClosePolicy → String × Option ℚ
  | ClosePolicy.manual p => ("close", some p)
  | ClosePolicy.market => ("close-at-market", none)
  | ClosePolicy.stopLoss => ("close-sl", none)
  | ClosePolicy.takeProfit => ("close-tp", none)

/- ===== Candle generator
   (src/frontend/src/components/TradingChart.jsx lines 12-38) ===== -/

/-- One OHLC bar produced by the chart's candle generator. -/
structure Candle where
  time : ℤ
  open_ : ℚ
  high : ℚ
  low : ℚ
  close : ℚ

/-- One loop iteration of `generateCandleData`: the three components of `d`
stand for the three `Math.random()` draws (change, high offset, low offset);
high/low are clamped to enclose open and close before rounding, exactly as
`Math.max(high, open, close)` / `Math.min(low, open, close)` do. -/
def mkCandle (vol : ℚ) (t : ℤ) (price : ℚ) (d : ℚ × ℚ × ℚ) : Candle :=
  { time := t
    open_ := round2 price
    high := round2 (max (price + d.2.1 * vol) (max price (price + (d.1 - 48/100) * vol)))
    low := round2 (min (price - d.2.2 * vol) (min price (price + (d.1 - 48/100) * vol)))
    close := round2 (price + (d.1 - 48/100) * vol) }

/-- The unrounded close carried to the next iteration (`price = close`). -/
def rawClose (vol : ℚ) (price : ℚ) (d : ℚ × ℚ × ℚ) : ℚ :=
  price + (d.1 - 48/100) * vol

/-- The loop of `generateCandleData`: `k` counts the remaining iterations,
the candle of iteration with loop index `i = k - 1` gets time
`now - i * 900` (15-minute bars). -/
def genCandles (vol : ℚ) (now : ℤ) (draws : ℕ → ℚ × ℚ × ℚ) :
    ℕ → ℚ → List Candle
  | 0, _ => []
  | k + 1, price =>
      mkCandle vol (now - (k : ℤ) * 900) price (draws k) ::
        genCandles vol now draws k (rawClose vol price (draws k))

/-- `generateCandleData` of `src/frontend/src/components/TradingChart.jsx`
(lines 12-38): volatility is `basePrice * 0.002` and the loop runs from
`i = count` down to `0`, producing `count + 1` candles. -/
def generateCandleData (basePrice : ℚ) (count : ℕ) (now : ℤ)
    (draws : ℕ → ℚ × ℚ × ℚ) : List Candle :=
  genCandles (basePrice * (2/1000)) now draws (count + 1) basePrice

/- ===== Backend ledger and portfolio model (server.py is not in the source
   tree; these definitions are modelled from the specification) ===== -/

/-- Trade direction, §3 of the spec. -/
inductive Direction where
  | BUY
  | SELL
deriving DecidableEq

/-- Trade status, §3 of the spec. -/
inductive TradeStatus where
  | OPEN
  | CLOSED
deriving DecidableEq

/-- Close reason, §3 of the spec. -/
inductive CloseReason where
  | MANUAL
  | MARKET
  | STOP_LOSS
  | TAKE_PROFIT
deriving DecidableEq

/-- Error of a close transition, §4.4/§7 of the spec. -/
inductive CloseError where
  | TradeAlreadyClosedError
deriving DecidableEq

/-- Modelled from the spec: the Trade record of §3 as the backend (the
missing server.py) persists it. -/
structure BTrade where
  tid : ℕ
  symbol : String
  direction : Direction
  entry_price : ℚ
  quantity : ℚ
  stop_loss : ℚ
  take_profit : ℚ
  strategy : Option String
  status : TradeStatus
  created_at : ℤ
  exit_price : Option ℚ
  pnl : Option ℚ
  closed_at : Option ℤ
  close_reason : Option CloseReason

/-- Sign of a direction: +1 for BUY, −1 for SELL (§4.4). -/
def dirSign : Direction → ℚ
  | Direction.BUY => 1
  | Direction.SELL => -1

/-- Modelled from the spec: the single `close(trade, reason, exit_price)`
transition of §4.4 (server.py missing): it fails on an already CLOSED
trade, otherwise recomputes pnl and transitions the trade to CLOSED. -/
def closeTransition (t : BTrade) (reason : CloseReason) (exitPrice : ℚ)
    (now : ℤ) : Except CloseError BTrade :=
  if t.status = TradeStatus.CLOSED then
    Except.error CloseError.TradeAlreadyClosedError
  else
    Except.ok { t with
      status := TradeStatus.CLOSED
      exit_price := some exitPrice
      pnl := some ((exitPrice - t.entry_price) * t.quantity * dirSign t.direction)
      closed_at := some now
      close_reason := some reason }

/-- Modelled from the spec: the `/trades/{id}/close?exit_price=p` endpoint
(server.py missing) — MANUAL close at a caller-supplied price. -/
def closeManual (t : BTrade) (price : ℚ) (now : ℤ) : Except CloseError BTrade :=
  if t.status = TradeStatus.CLOSED then
    Except.error CloseError.TradeAlreadyClosedError
  else
    Except.ok { t with
      status := TradeStatus.CLOSED
      exit_price := some price
      pnl := some ((price - t.entry_price) * t.quantity * dirSign t.direction)
      closed_at := some now
      close_reason := some CloseReason.MANUAL }

/-- Modelled from the spec: the `/trades/{id}/close-at-market` endpoint
(server.py missing) — close at the current live price. -/
def closeAtMarket (t : BTrade) (livePrice : ℚ) (now : ℤ) :
    Except CloseError BTrade :=
  if t.status = TradeStatus.CLOSED then
    Except.error CloseError.TradeAlreadyClosedError
  else
    Except.ok { t with
      status := TradeStatus.CLOSED
      exit_price := some livePrice
      pnl := some ((livePrice - t.entry_price) * t.quantity * dirSign t.direction)
      closed_at := some now
      close_reason := some CloseReason.MARKET }

/-- Modelled from the spec: the `/trades/{id}/close-sl` endpoint
(server.py missing) — close at the trade's own stop price. -/
def closeSl (t : BTrade) (now : ℤ) : Except CloseError BTrade :=
  if t.status = TradeStatus.CLOSED then
    Except.error CloseError.TradeAlreadyClosedError
  else
    Except.ok { t with
      status := TradeStatus.CLOSED
      exit_price := some t.stop_loss
      pnl := some ((t.stop_loss - t.entry_price) * t.quantity * dirSign t.direction)
      closed_at := some now
      close_reason := some CloseReason.STOP_LOSS }

/-- Modelled from the spec: the `/trades/{id}/close-tp` endpoint
(server.py missing) — close at the trade's own target price. -/
def closeTp (t : BTrade) (now : ℤ) : Except CloseError BTrade :=
  if t.status = TradeStatus.CLOSED then
    Except.error CloseError.TradeAlreadyClosedError
  else
    Except.ok { t with
      status := TradeStatus.CLOSED
      exit_price := some t.take_profit
      pnl := some ((t.take_profit - t.entry_price) * t.quantity * dirSign t.direction)
      closed_at := some now
      close_reason := some CloseReason.TAKE_PROFIT }

/-- The CLOSED trades of a list. -/
def closedTrades (ts : List BTrade) : List BTrade :=
  ts.filter (fun t => t.status = TradeStatus.CLOSED)

/-- Realized pnl of a trade (0 while none is recorded). -/
def tradePnl (t : BTrade) : ℚ := t.pnl.getD 0

/-- Modelled from the spec: `total_pnl` of §4.5 (server.py missing) — the
sum of pnl over CLOSED trades. -/
def totalPnl (ts : List BTrade) : ℚ := ((closedTrades ts).map tradePnl).sum

/-- Ordering of closed trades by close time (§4.5). -/
def byCloseTime (a b : BTrade) : Prop :=
  a.closed_at.getD 0 ≤ b.closed_at.getD 0

instance : DecidableRel byCloseTime := fun a b =>
  inferInstanceAs (Decidable (a.closed_at.getD 0 ≤ b.closed_at.getD 0))

instance : IsTotal BTrade byCloseTime :=
  ⟨fun a b => le_total (a.closed_at.getD 0) (b.closed_at.getD 0)⟩

instance : IsTrans BTrade byCloseTime :=
  ⟨fun _ _ _ hab hbc => le_trans hab hbc⟩

/-- Equity points: the running cumulative sums, prefixed with the starting
accumulator. -/
def equityPoints : ℚ → List ℚ → List ℚ
  | acc, [] => [acc]
  | acc, p :: ps => acc :: equityPoints (acc + p) ps

/-- Modelled from the spec: the `/portfolio/equity-curve` endpoint of §4.5
(server.py missing) — running cumulative sum of pnl over CLOSED trades
ordered by close time, prefixed with the initial capital. -/
def equityCurve (initialCapital : ℚ) (ts : List BTrade) : List ℚ :=
  equityPoints initialCapital
    ((List.insertionSort byCloseTime (closedTrades ts)).map tradePnl)

/-- Strategy tag of a trade; trades without a tag fall into a single
default group. -/
def tagOf (t : BTrade) : String := t.strategy.getD "unknown"

/-- One row of the strategy ranking. -/
structure SStat where
  strategy : String
  total_trades : ℕ
  total_pnl : ℚ
  avg_pnl : ℚ
  win_rate : ℚ
  max_win : ℚ

/-- Modelled from the spec: the per-group row of `strategy_stats` (§4.5,
server.py missing) — trade count, total pnl, average pnl, win rate and max
single win over the CLOSED trades carrying the tag. -/
def statFor (closed : List BTrade) (k : String) : SStat :=
  { strategy := k
    total_trades := (closed.filter (fun t => tagOf t = k)).length
    total_pnl := ((closed.filter (fun t => tagOf t = k)).map tradePnl).sum
    avg_pnl := ((closed.filter (fun t => tagOf t = k)).map tradePnl).sum /
      ((closed.filter (fun t => tagOf t = k)).length : ℚ)
    win_rate := (((closed.filter (fun t => tagOf t = k)).filter
      (fun t => 0 < tradePnl t)).length : ℚ) /
      ((closed.filter (fun t => tagOf t = k)).length : ℚ) * 100
    max_win := ((closed.filter (fun t => tagOf t = k)).map tradePnl).foldr max 0 }

/-- Descending order on total pnl, the ranking order of §4.5. -/
def statGE (a b : SStat) : Prop := b.total_pnl ≤ a.total_pnl

instance : DecidableRel statGE := fun a b =>
  inferInstanceAs (Decidable (b.total_pnl ≤ a.total_pnl))

instance : IsTotal SStat statGE :=
  ⟨fun a b => (le_total a.total_pnl b.total_pnl).symm⟩

instance : IsTrans SStat statGE :=
  ⟨fun _ _ _ hab hbc => le_trans hbc hab⟩

/-- Modelled from the spec: the `/portfolio/strategy-stats` endpoint of §4.5
(server.py missing) — group CLOSED trades by strategy tag and sort the
groups in descending order of total pnl. -/
def strategyStats (ts : List BTrade) : List SStat :=
  List.insertionSort statGE
    ((((closedTrades ts).map tagOf).dedup).map (statFor (closedTrades ts)))

/- ===== Concrete example inputs used by witnesses and counterexamples ===== -/

/-- Example client signal: captured entry 100, stop 90, target 120. -/
def exSignal : ClientSignal :=
  { sid := "s1", symbol := "BTC/USD", direction := "BUY",
    entry := 100, sl := 90, tp := 120, strategy := "smc" }

/-- Example analysis payload with a degenerate target distance
(take_profit_1 equal to entry_price). -/
def exAnalysis : AnalysisResult :=
  { signal := some "BUY", entry_price := some 100, stop_loss := some 90,
    take_profit_1 := some 100, confidence := some 70 }

/- ===== Helper lemmas ===== -/

/-- Rounding to two decimals is monotone. -/
theorem round2_mono {x y : ℚ} (h : x ≤ y) : round2 x ≤ round2 y := by
  unfold round2
  have h2 : round (x * 100) ≤ round (y * 100) := by
    rw [round_eq, round_eq]
    exact Int.floor_mono (by linarith)
  have h3 : ((round (x * 100) : ℤ) : ℚ) ≤ ((round (y * 100) : ℤ) : ℚ) := by
    exact_mod_cast h2
  linarith

/-- Rounding fixes zero. -/
theorem round2_zero : round2 0 = 0 := by
  simp [round2]

/-- Rounding preserves nonnegativity. -/
theorem round2_nonneg {x : ℚ} (h : 0 ≤ x) : 0 ≤ round2 x :=
  round2_zero ▸ round2_mono h

/-- Two-decimal rounding moves a value by at most 1/200. -/
theorem round2_abs_sub (x : ℚ) : |round2 x - x| ≤ 1 / 200 := by
  have h := abs_sub_round (x * 100)
  rw [abs_sub_comm] at h
  have hx : round2 x - x = (((round (x * 100) : ℤ) : ℚ) - x * 100) / 100 := by
    unfold round2; ring
  rw [hx, abs_div]
  have h100 : |(100 : ℚ)| = 100 := by norm_num
  rw [h100]
  linarith

/-- The equity-points list starts at the accumulator. -/
theorem equityPoints_head (a : ℚ) (l : List ℚ) :
    (equityPoints a l).head? = some a := by
  cases l <;> rfl

/-- The equity-points list ends at the accumulator plus the total. -/
theorem equityPoints_getLast (a : ℚ) (l : List ℚ) :
    (equityPoints a l).getLast? = some (a + l.sum) := by
  induction l generalizing a with
  | nil => simp [equityPoints]
  | cons p ps ih =>
    obtain ⟨y, ys, hy⟩ : ∃ y ys, equityPoints (a + p) ps = y :: ys := by
      cases ps <;> exact ⟨_, _, rfl⟩
    rw [equityPoints, hy, List.getLast?_cons_cons, ← hy, ih (a + p)]
    simp [add_assoc]

/-- The equity-points list has one more point than there are pnl entries. -/
theorem equityPoints_length (a : ℚ) (l : List ℚ) :
    (equityPoints a l).length = l.length + 1 := by
  induction l generalizing a with
  | nil => rfl
  | cons p ps ih => simp [equityPoints, ih]

/-- Every candle built by one loop iteration satisfies the OHLC invariant
after rounding. -/
theorem mkCandle_inv (vol : ℚ) (t : ℤ) (price : ℚ) (d : ℚ × ℚ × ℚ) :
    (mkCandle vol t price d).low ≤
      min (mkCandle vol t price d).open_ (mkCandle vol t price d).close ∧
    max (mkCandle vol t price d).open_ (mkCandle vol t price d).close ≤
      (mkCandle vol t price d).high := by
  unfold mkCandle
  dsimp only
  constructor
  · apply le_min
    · exact round2_mono (le_trans (min_le_right _ _) (min_le_left _ _))
    · exact round2_mono (le_trans (min_le_right _ _) (min_le_right _ _))
  · apply max_le
    · exact round2_mono (le_trans (le_max_left _ _) (le_max_right _ _))
    · exact round2_mono (le_trans (le_max_right _ _) (le_max_right _ _))

/-- Every candle in the generated series satisfies the OHLC invariant. -/
theorem genCandles_inv (vol : ℚ) (now : ℤ) (draws : ℕ → ℚ × ℚ × ℚ) :
    ∀ (k : ℕ) (price : ℚ), ∀ c ∈ genCandles vol now draws k price,
      c.low ≤ min c.open_ c.close ∧ max c.open_ c.close ≤ c.high := by
  intro k
  induction k with
  | zero => intro price c hc; simp [genCandles] at hc
  | succ n ih =>
    intro price c hc
    rw [genCandles] at hc
    rcases List.mem_cons.mp hc with h | h
    · subst h; exact mkCandle_inv _ _ _ _
    · exact ih _ c h

/-- The candle times in the generated series are strictly increasing. -/
theorem genCandles_chain (vol : ℚ) (now : ℤ) (draws : ℕ → ℚ × ℚ × ℚ) :
    ∀ (k : ℕ) (price : ℚ),
      List.Chain' (fun a b : Candle => a.time < b.time)
        (genCandles vol now draws k price) := by
  intro k
  induction k with
  | zero => intro price; simp [genCandles]
  | succ n ih =>
    intro price
    rw [genCandles]
    apply List.chain'_cons'.mpr
    refine ⟨?_, ih _⟩
    intro b hb
    cases n with
    | zero => simp [genCandles] at hb
    | succ m =>
      have hhead : (genCandles vol now draws (m + 1)
          (rawClose vol price (draws (m + 1)))).head? =
          some (mkCandle vol (now - (m : ℤ) * 900)
            (rawClose vol price (draws (m + 1))) (draws m)) := rfl
      rw [hhead] at hb
      have hb2 : b = mkCandle vol (now - (m : ℤ) * 900)
          (rawClose vol price (draws (m + 1))) (draws m) := by
        exact (by simpa using hb : _ = b).symm
      subst hb2
      show (mkCandle vol (now - ((m + 1 : ℕ) : ℤ) * 900) price
        (draws (m + 1))).time < _
      simp only [mkCandle]
      push_cast
      linarith

/- ===== Claim theorems ===== -/

/-- C1 (amended): the TradingPage trade-open operation of `App.js` copies
`entry_price` from the live market price fetched at confirmation time, for
every signal; the older client variants (`part_003` and `Signals.jsx`, and
`markExecuted` of `part_001`) instead copy the signal's captured entry
price. -/
theorem C1_entry_price_sources (s : ClientSignal) (livePrice : ℚ) :
    (appExecuteTrade s livePrice).entry_price = livePrice ∧
    (part003ExecuteTrade s).entry_price = s.entry ∧
    (signalsPageExecuteTrade s).entry_price = s.entry ∧
    (markExecuted s).entry_price = s.entry :=
  ⟨rfl, rfl, rfl, rfl⟩

/-- C1 counterexample: with the live market price 105 at confirmation time
and a signal whose captured entry is 100, the `part_003` trade-open request
carries entry_price 100 — the signal's captured price, not the live one
(the function does not even consult the live price). -/
theorem C1_counterexample :
    (part003ExecuteTrade exSignal).entry_price = exSignal.entry ∧
    (part003ExecuteTrade exSignal).entry_price ≠ 105 := by
  refine ⟨rfl, ?_⟩
  norm_num [part003ExecuteTrade, exSignal]

/-- C2 (amended): when entry, stop and target are all present (truthy) and
the stop distance is non-degenerate, the client attaches
rr = round2 |(tp − entry)/(entry − stop)| to the signal it produces; the
value is non-negative but not guaranteed strictly positive, and no
degenerate setup is rejected — the signal is always produced. -/
theorem C2_rr_amended (sig : Option String) (conf : Option ℚ) (e s t : ℚ)
    (he : e ≠ 0) (hs : s ≠ 0) (ht : t ≠ 0) (hes : e ≠ s) :
    (genSignal { signal := sig,
                 entry_price := some e,
                 stop_loss := some s,
                 take_profit_1 := some t,
                 confidence := conf }).rr
      = some (round2 |(t - e) / (e - s)|) ∧
    0 ≤ round2 |(t - e) / (e - s)| := by
  constructor
  · show clientRR (some e) (some s) (some t) = _
    simp [clientRR, qTruthy, he, hs, ht]
  · exact round2_nonneg (abs_nonneg _)

/-- C2 witness: the amended statement instantiated at entry 100, stop 90,
target 100. -/
theorem C2_rr_amended_witness :
    (genSignal { signal := some "BUY",
                 entry_price := some 100,
                 stop_loss := some 90,
                 take_profit_1 := some 100,
                 confidence := some 70 }).rr
      = some (round2 |((100 : ℚ) - 100) / (100 - 90)|) ∧
    (0 : ℚ) ≤ round2 |((100 : ℚ) - 100) / (100 - 90)| :=
  C2_rr_amended (some "BUY") (some 70) 100 90 100 (by norm_num)
    (by norm_num) (by norm_num) (by norm_num)

/-- C2 counterexample: the analysis payload with entry 100, stop 90 and
target 100 (a degenerate, zero target distance) is not rejected — the
client produces the signal, and its rr is 0, not strictly positive. -/
theorem C2_counterexample :
    (genSignal exAnalysis).rr = some 0 ∧
    ¬ ∃ r : ℚ, (genSignal exAnalysis).rr = some r ∧ 0 < r := by
  have h : (genSignal exAnalysis).rr = some 0 := by
    show clientRR (some 100) (some 90) (some 100) = some 0
    simp [clientRR, qTruthy]
    norm_num [round2]
  refine ⟨h, ?_⟩
  rintro ⟨r, hr, hpos⟩
  rw [h] at hr
  have : r = 0 := by
    exact (Option.some_injective ℚ hr).symm
  rw [this] at hpos
  exact absurd hpos (by norm_num)

/-- C3: the equity curve starts at the initial capital, ends at
initial capital plus the total pnl over CLOSED trades, and has exactly one
point per closed trade plus the initial point. -/
theorem C3_equity_curve (init : ℚ) (ts : List BTrade) :
    (equityCurve init ts).head? = some init ∧
    (equityCurve init ts).getLast? = some (init + totalPnl ts) ∧
    (equityCurve init ts).length = (closedTrades ts).length + 1 := by
  refine ⟨equityPoints_head _ _, ?_, ?_⟩
  · rw [equityCurve, equityPoints_getLast]
    have hperm :
        ((List.insertionSort byCloseTime (closedTrades ts)).map tradePnl).Perm
          ((closedTrades ts).map tradePnl) :=
      (List.perm_insertionSort byCloseTime (closedTrades ts)).map tradePnl
    rw [hperm.sum_eq]
    rfl
  · rw [equityCurve, equityPoints_length, List.length_map]
    rw [(List.perm_insertionSort byCloseTime (closedTrades ts)).length_eq]

/-- C4: for present entry/stop/target values with a non-degenerate stop
distance, the rr the client attaches is the two-decimal rounding of
|tp − entry| / |entry − stop|: the code's absolute value of the quotient
equals the quotient of absolute values, and the rounding moves the value by
at most 1/200. -/
theorem C4_rr_formula (e s t : ℚ) (he : e ≠ 0) (hs : s ≠ 0) (ht : t ≠ 0)
    (hes : e ≠ s) :
    clientRR (some e) (some s) (some t) = some (round2 (|t - e| / |e - s|)) ∧
    |(t - e) / (e - s)| = |t - e| / |e - s| ∧
    abs (round2 (|t - e| / |e - s|) - |t - e| / |e - s|) ≤ 1 / 200 := by
  have habs : |(t - e) / (e - s)| = |t - e| / |e - s| := abs_div _ _
  refine ⟨?_, habs, round2_abs_sub _⟩
  simp [clientRR, qTruthy, he, hs, ht, habs]

/-- C4 witness: the statement instantiated at entry 100, stop 90,
target 120. -/
theorem C4_rr_formula_witness :
    clientRR (some 100) (some 90) (some 120)
      = some (round2 (|(120 : ℚ) - 100| / |(100 : ℚ) - 90|)) ∧
    |((120 : ℚ) - 100) / (100 - 90)| = |(120 : ℚ) - 100| / |(100 : ℚ) - 90| ∧
    abs (round2 (|(120 : ℚ) - 100| / |(100 : ℚ) - 90|) -
      |(120 : ℚ) - 100| / |(100 : ℚ) - 90|) ≤ 1 / 200 :=
  C4_rr_formula 100 90 120 (by norm_num) (by norm_num) (by norm_num)
    (by norm_num)

/-- C5: each requested close type selects exactly one policy; MANUAL sends
the caller-supplied price on the plain close endpoint while MARKET,
STOP_LOSS and TAKE_PROFIT send no caller price and hit close-at-market,
close-sl and close-tp; the four endpoints are pairwise distinct, and each
backend policy equals the single close transition applied to its exit-price
source. -/
theorem C5_close_policies (t : BTrade) (price livePrice : ℚ) (now : ℤ) :
    closeManual t price now = closeTransition t CloseReason.MANUAL price now ∧
    closeAtMarket t livePrice now
      = closeTransition t CloseReason.MARKET livePrice now ∧
    closeSl t now = closeTransition t CloseReason.STOP_LOSS t.stop_loss now ∧
    closeTp t now = closeTransition t CloseReason.TAKE_PROFIT t.take_profit now ∧
    clientCloseRequest (ClosePolicy.manual price) = ("close", some price) ∧
    clientCloseRequest ClosePolicy.market = ("close-at-market", none) ∧
    clientCloseRequest ClosePolicy.stopLoss = ("close-sl", none) ∧
    clientCloseRequest ClosePolicy.takeProfit = ("close-tp", none) ∧
    (clientCloseRequest (ClosePolicy.manual price)).1
      ≠ (clientCloseRequest ClosePolicy.market).1 ∧
    (clientCloseRequest (ClosePolicy.manual price)).1
      ≠ (clientCloseRequest ClosePolicy.stopLoss).1 ∧
    (clientCloseRequest (ClosePolicy.manual price)).1
      ≠ (clientCloseRequest ClosePolicy.takeProfit).1 ∧
    (clientCloseRequest ClosePolicy.market).1
      ≠ (clientCloseRequest ClosePolicy.stopLoss).1 ∧
    (clientCloseRequest ClosePolicy.market).1
      ≠ (clientCloseRequest ClosePolicy.takeProfit).1 ∧
    (clientCloseRequest ClosePolicy.stopLoss).1
      ≠ (clientCloseRequest ClosePolicy.takeProfit).1 := by
  refine ⟨rfl, rfl, rfl, rfl, rfl, rfl, rfl, rfl, ?_, ?_, ?_, ?_, ?_, ?_⟩
  · exact fun h =>
      absurd (show ("close" : String) = "close-at-market" from h) (by decide)
  · exact fun h =>
      absurd (show ("close" : String) = "close-sl" from h) (by decide)
  · exact fun h =>
      absurd (show ("close" : String) = "close-tp" from h) (by decide)
  · exact fun h =>
      absurd (show ("close-at-market" : String) = "close-sl" from h) (by decide)
  · exact fun h =>
      absurd (show ("close-at-market" : String) = "close-tp" from h) (by decide)
  · exact fun h =>
      absurd (show ("close-sl" : String) = "close-tp" from h) (by decide)

/-- C6: the strategy ranking rows are exactly the strategy tags of the
CLOSED trades (a missing tag grouped under the single default tag), each
row's trade count and total pnl are the count and pnl sum of the closed
trades carrying its tag, the tags are pairwise distinct across rows, and
the rows are sorted in descending order of total pnl. -/
theorem C6_strategy_stats (ts : List BTrade) :
    (∀ stat ∈ strategyStats ts,
      stat.total_trades
        = ((closedTrades ts).filter (fun t => tagOf t = stat.strategy)).length ∧
      stat.total_pnl
        = (((closedTrades ts).filter
            (fun t => tagOf t = stat.strategy)).map tradePnl).sum) ∧
    ((strategyStats ts).map SStat.strategy).Nodup ∧
    (∀ k : String,
      k ∈ (strategyStats ts).map SStat.strategy
        ↔ ∃ t ∈ closedTrades ts, tagOf t = k) ∧
    List.Sorted statGE (strategyStats ts) := by
  have hmapstrat :
      (((((closedTrades ts).map tagOf).dedup).map
        (statFor (closedTrades ts))).map SStat.strategy)
        = ((closedTrades ts).map tagOf).dedup := by
    rw [List.map_map]
    have : (SStat.strategy ∘ statFor (closedTrades ts)) = fun k => k :=
      funext fun _ => rfl
    rw [this, List.map_id']
  have hperm :
      (strategyStats ts).Perm
        ((((closedTrades ts).map tagOf).dedup).map
          (statFor (closedTrades ts))) :=
    List.perm_insertionSort statGE _
  refine ⟨?_, ?_, ?_, List.sorted_insertionSort statGE _⟩
  · intro stat hstat
    rw [strategyStats, List.mem_insertionSort] at hstat
    obtain ⟨k, _, rfl⟩ := List.mem_map.mp hstat
    exact ⟨rfl, rfl⟩
  · have hnodup : (((((closedTrades ts).map tagOf).dedup).map
        (statFor (closedTrades ts))).map SStat.strategy).Nodup := by
      rw [hmapstrat]; exact List.nodup_dedup _
    exact ((hperm.map SStat.strategy).nodup_iff).mpr hnodup
  · intro k
    rw [(hperm.map SStat.strategy).mem_iff, hmapstrat, List.mem_dedup,
      List.mem_map]

/-- C7: every candle produced by the chart's candle generator satisfies
low ≤ min(open, close) and max(open, close) ≤ high after rounding each
field to two decimals, and the candle times are strictly increasing within
the series, for every base price, count and sequence of random draws. -/
theorem C7_candle_invariant (basePrice : ℚ) (count : ℕ) (now : ℤ)
    (draws : ℕ → ℚ × ℚ × ℚ) :
    (∀ c ∈ generateCandleData basePrice count now draws,
      c.low ≤ min c.open_ c.close ∧ max c.open_ c.close ≤ c.high) ∧
    List.Chain' (fun a b => a.time < b.time)
      (generateCandleData basePrice count now draws) :=
  ⟨fun c hc => genCandles_inv _ _ _ _ _ c hc, genCandles_chain _ _ _ _ _⟩

/-- C8: the quality tier is A exactly when confidence ≥ 80, B exactly when
65 ≤ confidence < 80, C exactly when confidence < 65, and the confidence
colour classification uses the same two thresholds. -/
theorem C8_tier_thresholds (c : ℚ) :
    (qualityTier c = "A" ↔ 80 ≤ c) ∧
    (qualityTier c = "B" ↔ 65 ≤ c ∧ c < 80) ∧
    (qualityTier c = "C" ↔ c < 65) ∧
    (confidenceColor (some c) = "text-emerald-400" ↔ 80 ≤ c) ∧
    (confidenceColor (some c) = "text-amber-300" ↔ 65 ≤ c ∧ c < 80) ∧
    (confidenceColor (some c) = "text-rose-400" ↔ c < 65) := by
  rcases lt_or_le c 65 with h65 | h65
  · have h80 : ¬ 80 ≤ c := by linarith
    have h65n : ¬ 65 ≤ c := not_le.mpr h65
    have ht : qualityTier c = "C" := by simp [qualityTier, h80, h65n]
    have hc : confidenceColor (some c) = "text-rose-400" := by
      simp [confidenceColor, h80, h65n]
    rw [ht, hc]
    refine ⟨⟨fun h => absurd h (by decide), fun h => absurd h h80⟩,
      ⟨fun h => absurd h (by decide), fun h => absurd h.1 h65n⟩,
      ⟨fun _ => h65, fun _ => rfl⟩,
      ⟨fun h => absurd h (by decide), fun h => absurd h h80⟩,
      ⟨fun h => absurd h (by decide), fun h => absurd h.1 h65n⟩,
      ⟨fun _ => h65, fun _ => rfl⟩⟩
  · rcases lt_or_le c 80 with h80 | h80
    · have h80n : ¬ 80 ≤ c := not_le.mpr h80
      have ht : qualityTier c = "B" := by simp [qualityTier, h80n, h65]
      have hc : confidenceColor (some c) = "text-amber-300" := by
        simp [confidenceColor, h80n, h65]
      rw [ht, hc]
      refine ⟨⟨fun h => absurd h (by decide), fun h => absurd h h80n⟩,
        ⟨fun _ => ⟨h65, h80⟩, fun _ => rfl⟩,
        ⟨fun h => absurd h (by decide), fun h => absurd h65 (not_le.mpr h)⟩,
        ⟨fun h => absurd h (by decide), fun h => absurd h h80n⟩,
        ⟨fun _ => ⟨h65, h80⟩, fun _ => rfl⟩,
        ⟨fun h => absurd h (by decide), fun h => absurd h65 (not_le.mpr h)⟩⟩
    · have ht : qualityTier c = "A" := by simp [qualityTier, h80]
      have hc : confidenceColor (some c) = "text-emerald-400" := by
        simp [confidenceColor, h80]
      rw [ht, hc]
      refine ⟨⟨fun _ => h80, fun _ => rfl⟩,
        ⟨fun h => absurd h (by decide), fun h => absurd h80 (not_le.mpr h.2)⟩,
        ⟨fun h => absurd h (by decide),
          fun h => absurd h80 (not_le.mpr (by linarith))⟩,
        ⟨fun _ => h80, fun _ => rfl⟩,
        ⟨fun h => absurd h (by decide), fun h => absurd h80 (not_le.mpr h.2)⟩,
        ⟨fun h => absurd h (by decide),
          fun h => absurd h80 (not_le.mpr (by linarith))⟩⟩

/-- C9: the total floating PnL is the sum, over exactly the trades whose
status is open, of their floating_pnl with a missing value counting as 0;
CLOSED trades contribute nothing.  It is a pure function of the trade list,
recomputed on every query. -/
theorem C9_floating_pnl (ts : List FloatTrade) :
    totalFloatingPnl ts
      = (ts.map (fun t =>
          if t.status = "open" then t.floating_pnl.getD 0 else 0)).sum := by
  induction ts with
  | nil => rfl
  | cons t ts ih =>
    simp only [totalFloatingPnl] at ih ⊢
    by_cases h : t.status = "open"
    · simp [List.filter_cons, h, ih]
    · simp [List.filter_cons, h, ih]

/-- C10: every trade-creation request the clients build sets quantity to
the constant 1, for every signal and live price; none of the four builders
consults any risk configuration. -/
theorem C10_quantity_constant (s : ClientSignal) (livePrice : ℚ) :
    (appExecuteTrade s livePrice).quantity = 1 ∧
    (part003ExecuteTrade s).quantity = 1 ∧
    (signalsPageExecuteTrade s).quantity = 1 ∧
    (markExecuted s).quantity = 1 :=
  ⟨rfl, rfl, rfl, rfl⟩
